import Mathlib

/-!
Verification of the input-formatting logic of
`textbox/model/Seq2Seq/transformers.py` (the `Transformers` wrapper class):
a shallow embedding of `_generate_default_inputs`, the per-example
CLM / EncDec encoding, the batch padding, and the `MODEL_CLASSES`
dispatch table, together with theorems about them.
Token ids are modelled as integers, tensors as lists of lists.
-/

namespace TextBox

/-- Python list slicing `xs[:k]` with an integer bound `k` (as produced by
expressions like `source_max_length - len(prefix_ids) - ... - 2`, which can be
negative): a nonnegative bound keeps the first `k` elements; a negative bound
drops the last `|k|` elements (and yields `[]` when `|k| ≥ len(xs)`). -/
def pySlice (xs : List ℤ) (k : ℤ) : List ℤ :=
  if 0 ≤ k then xs.take k.toNat else xs.take (xs.length - k.natAbs)

/-- The tokenizer interface used by `_generate_default_inputs`
(an external collaborator; `transformers.py` only calls these members). -/
structure Tokenizer where
  encode : String → List ℤ
  build_inputs_with_special_tokens : List ℤ → List ℤ
  num_special_tokens_to_add : ℕ
  pad_token_id : ℤ

/-- `CLM_MODELS` from `transformers.py`. -/
def CLM_MODELS : List String := ["gpt2seq", "big_bird2seq", "bert2seq", "roberta2seq"]

/-- `EncDecLM_MODELS` from `transformers.py`. -/
def EncDecLM_MODELS : List String := ["t5", "bart", "bert2bert", "big_bird_pegasus", "blender_bot"]

/-- Tokenizer classes imported in `transformers.py`. -/
inductive TokenizerClass
  | T5Tokenizer
  | BartTokenizer
  | BertTokenizer
  | PegasusTokenizer
  | BlenderbotTokenizer
  | GPT2Tokenizer
  | BigBirdTokenizer
  | RobertaTokenizer
  deriving DecidableEq

/-- Model classes imported in `transformers.py`. -/
inductive ModelClass
  | T5ForConditionalGeneration
  | BartForConditionalGeneration
  | EncoderDecoderModel
  | BigBirdPegasusForConditionalGeneration
  | BlenderbotForConditionalGeneration
  | GPT2LMHeadModel
  | BigBirdForCausalLM
  | BertLMHeadModel
  | RobertaForCausalLM
  deriving DecidableEq

/-- The `MODEL_CLASSES` dictionary of `transformers.py`, as an association
list from model identifier to its (tokenizer class, model class) pair. -/
def MODEL_CLASSES : List (String × TokenizerClass × ModelClass) :=
  [("t5", (.T5Tokenizer, .T5ForConditionalGeneration)),
   ("bart", (.BartTokenizer, .BartForConditionalGeneration)),
   ("bert2bert", (.BertTokenizer, .EncoderDecoderModel)),
   ("big_bird_pegasus", (.PegasusTokenizer, .BigBirdPegasusForConditionalGeneration)),
   ("blender_bot", (.BlenderbotTokenizer, .BlenderbotForConditionalGeneration)),
   ("gpt2seq", (.GPT2Tokenizer, .GPT2LMHeadModel)),
   ("big_bird2seq", (.BigBirdTokenizer, .BigBirdForCausalLM)),
   ("bert2seq", (.BertTokenizer, .BertLMHeadModel)),
   ("roberta2seq", (.RobertaTokenizer, .RobertaForCausalLM))]

/-- The dictionary access `MODEL_CLASSES[model_name]` performed in
`Transformers.__init__`: `none` models the lookup failure raised on an
unsupported identifier (the spec's ConfigurationError). -/
def lookup_model_classes (name : String) : Option (TokenizerClass × ModelClass) :=
  (MODEL_CLASSES.find? (fun p => p.1 == name)).map Prod.snd

/-- The state of a `Transformers` instance that `_generate_default_inputs`
reads: the chosen model identifier, the tokenizer, the length bounds and the
affix prompts (already encoded to ids), and the bos/eos special ids used in
CLM mode. -/
structure Transformers where
  model_name : String
  tokenizer : Tokenizer
  source_max_length : ℕ
  target_max_length : ℕ
  prefix_ids : List ℤ
  suffix_ids : List ℤ
  bos_token_id : ℤ
  eos_token_id : ℤ

/-- One encoded example: the three per-example lists appended to
`input_ids`, `labels` and `attn_masks` in the loop of
`_generate_default_inputs`. -/
structure EncodedExample where
  input_id : List ℤ
  label : List ℤ
  attention_mask : List ℤ
  deriving DecidableEq

/-- CLM branch: `src_ids[:self.source_max_length - len(self.prefix_ids) - len(self.suffix_ids) - 2]`. -/
def clm_truncated_source (M : Transformers) (src_ids : List ℤ) : List ℤ :=
  pySlice src_ids
    ((M.source_max_length : ℤ) - M.prefix_ids.length - M.suffix_ids.length - 2)

/-- CLM branch: `tgt_ids[:self.target_max_length - 1]`. -/
def clm_truncated_target (M : Transformers) (tgt_ids : List ℤ) : List ℤ :=
  pySlice tgt_ids ((M.target_max_length : ℤ) - 1)

/-- CLM branch: `src_input_id = [bos] + prefix_ids + src_ids + suffix_ids + [eos]`. -/
def clm_src_input_id (M : Transformers) (src_ids : List ℤ) : List ℤ :=
  [M.bos_token_id] ++ M.prefix_ids ++ clm_truncated_source M src_ids
    ++ M.suffix_ids ++ [M.eos_token_id]

/-- CLM branch: `tgt_input_id = tgt_ids + [eos]`. -/
def clm_tgt_input_id (M : Transformers) (tgt_ids : List ℤ) : List ℤ :=
  clm_truncated_target M tgt_ids ++ [M.eos_token_id]

/-- EncDec branch: `src_ids[:self.source_max_length - num_special_tokens_to_add - len(prefix_ids) - len(suffix_ids)]`. -/
def encdec_truncated_source (M : Transformers) (src_ids : List ℤ) : List ℤ :=
  pySlice src_ids
    ((M.source_max_length : ℤ) - M.tokenizer.num_special_tokens_to_add
      - M.prefix_ids.length - M.suffix_ids.length)

/-- EncDec branch: `tgt_ids[:self.target_max_length - num_special_tokens_to_add]`. -/
def encdec_truncated_target (M : Transformers) (tgt_ids : List ℤ) : List ℤ :=
  pySlice tgt_ids
    ((M.target_max_length : ℤ) - M.tokenizer.num_special_tokens_to_add)

/-- The body of the `for src, tgt in zip(...)` loop of
`_generate_default_inputs`: encodes one (source, target) pair into the three
per-example lists. `attention_mask` is `torch.ones(len(input_id))`. -/
def encode_example (M : Transformers) (src tgt : String) : EncodedExample :=
  let src_ids := M.tokenizer.encode src
  let tgt_ids := M.tokenizer.encode tgt
  if M.model_name ∈ CLM_MODELS then
    let input_id := clm_src_input_id M src_ids ++ clm_tgt_input_id M tgt_ids
    { input_id := input_id
      label := List.replicate (clm_src_input_id M src_ids).length (-100)
                 ++ clm_tgt_input_id M tgt_ids
      attention_mask := List.replicate input_id.length 1 }
  else
    let input_id := M.tokenizer.build_inputs_with_special_tokens
      (M.prefix_ids ++ encdec_truncated_source M src_ids ++ M.suffix_ids)
    { input_id := input_id
      label := M.tokenizer.build_inputs_with_special_tokens
                 (encdec_truncated_target M tgt_ids)
      attention_mask := List.replicate input_id.length 1 }

/-- Right-pad a row with value `v` to width `n` (a row of
`pad_sequence(..., batch_first=True, padding_value=v)`). -/
def padTo (n : ℕ) (v : ℤ) (xs : List ℤ) : List ℤ :=
  xs ++ List.replicate (n - xs.length) v

/-- The maximum row length of a batch (the width `pad_sequence` pads to). -/
def batchMaxLen (xss : List (List ℤ)) : ℕ :=
  (xss.map List.length).foldr max 0

/-- `torch.nn.utils.rnn.pad_sequence(xss, batch_first=True, padding_value=v)`:
every row right-padded with `v` to the batch's maximum row length. -/
def pad_sequence (xss : List (List ℤ)) (v : ℤ) : List (List ℤ) :=
  xss.map (padTo (batchMaxLen xss) v)

/-- The `corpus` argument of `_generate_default_inputs`
(`corpus['source_text']` and `corpus['target_text']`). -/
structure Corpus where
  source_text : List String
  target_text : List String

/-- The per-example encodings produced by the loop of
`_generate_default_inputs` (one per pair of `zip(source_text, target_text)`). -/
def encoded (M : Transformers) (corpus : Corpus) : List EncodedExample :=
  (corpus.source_text.zip corpus.target_text).map (fun p => encode_example M p.1 p.2)

/-- The returned `inputs` dictionary of `_generate_default_inputs`. -/
structure Batch where
  input_ids : List (List ℤ)
  attention_mask : List (List ℤ)
  labels : List (List ℤ)
  deriving DecidableEq

/-- `_generate_default_inputs`: encode every example, pad `input_ids` with the
tokenizer's pad id, `attn_masks` with 0 and `labels` with -100, and for
`bert2bert` replace the labels by `labels[:, 1:]` (every row loses its first
column). -/
def generate_default_inputs (M : Transformers) (corpus : Corpus) : Batch :=
  let enc := encoded M corpus
  let input_ids := pad_sequence (enc.map EncodedExample.input_id) M.tokenizer.pad_token_id
  let attn_masks := pad_sequence (enc.map EncodedExample.attention_mask) 0
  let labels := pad_sequence (enc.map EncodedExample.label) (-100)
  { input_ids := input_ids
    attention_mask := attn_masks
    labels := if M.model_name = "bert2bert" then labels.map (List.drop 1) else labels }

/-! Concrete instantiations used as witnesses and counterexamples.
`Tok0` is a minimal tokenizer satisfying the interface: each character of a
text encodes to the id 7, and special-token framing wraps a sequence in the
ids 0 and 1 (so `num_special_tokens_to_add` is 2). -/

/-- A concrete tokenizer: one id per character, bos/eos framing 0 and 1. -/
def Tok0 : Tokenizer :=
  { encode := fun s => List.replicate s.length 7
    build_inputs_with_special_tokens := fun ids => [0] ++ ids ++ [1]
    num_special_tokens_to_add := 2
    pad_token_id := 3 }

/-- A `bart` (EncDec, non-bert2bert) configuration over `Tok0`. -/
def M_bart : Transformers :=
  { model_name := "bart", tokenizer := Tok0,
    source_max_length := 10, target_max_length := 10,
    prefix_ids := [], suffix_ids := [],
    bos_token_id := 101, eos_token_id := 102 }

/-- A `gpt2seq` (CLM) configuration over `Tok0`, with a two-id prefix prompt
and a one-id suffix prompt. -/
def M_clm : Transformers :=
  { model_name := "gpt2seq", tokenizer := Tok0,
    source_max_length := 10, target_max_length := 10,
    prefix_ids := [1, 2], suffix_ids := [4],
    bos_token_id := 101, eos_token_id := 102 }

/-- A CLM configuration in the truncation-underflow regime:
`source_max_length = 1` is below the fixed bos/eos overhead of 2, so the CLM
slice bound `1 - 0 - 0 - 2 = -1` is negative. Every text encodes to
`[5, 6, 7]`. -/
def M_underflow : Transformers :=
  { model_name := "gpt2seq",
    tokenizer := { Tok0 with encode := fun _ => [5, 6, 7] },
    source_max_length := 1, target_max_length := 5,
    prefix_ids := [], suffix_ids := [],
    bos_token_id := 101, eos_token_id := 102 }

/-- An EncDec configuration in the truncation-underflow regime:
`source_max_length = 1` is below `num_special_tokens_to_add = 2`, so the
EncDec slice bound `1 - 2 - 0 - 0 = -1` is negative. -/
def M_encdec_underflow : Transformers :=
  { model_name := "bart",
    tokenizer := { Tok0 with encode := fun _ => [5, 6, 7] },
    source_max_length := 1, target_max_length := 5,
    prefix_ids := [], suffix_ids := [],
    bos_token_id := 101, eos_token_id := 102 }

/-- A `bert2bert` (dual encoder-decoder) configuration over `Tok0`. -/
def M_b2b : Transformers :=
  { model_name := "bert2bert", tokenizer := Tok0,
    source_max_length := 10, target_max_length := 10,
    prefix_ids := [], suffix_ids := [],
    bos_token_id := 101, eos_token_id := 102 }

/-- A two-example corpus used with the `bert2bert` configuration. -/
def C_b2b : Corpus := { source_text := ["ab", "abcd"], target_text := ["abc", "a"] }

/-- A two-example corpus used with the CLM configuration. -/
def C_clm : Corpus := { source_text := ["ab", "abcd"], target_text := ["abc", "a"] }

/-! General lemmas about the padding primitives and the per-example encoder. -/

/-- Dropping the first column commutes with right-padding: removing the head
of a padded row is the same as padding the beheaded row one column narrower. -/
theorem padTo_drop_one (n : ℕ) (v : ℤ) (xs : List ℤ) :
    (padTo n v xs).drop 1 = padTo (n - 1) v (xs.drop 1) := by
  cases xs with
  | nil => simp [padTo, List.drop_replicate]
  | cons a t => simp [padTo, Nat.sub_sub, Nat.add_comm]

/-- Every row of a batch is at most as long as the batch's maximum row length. -/
theorem length_le_batchMaxLen {xs : List ℤ} {xss : List (List ℤ)} (h : xs ∈ xss) :
    xs.length ≤ batchMaxLen xss := by
  induction xss with
  | nil => cases h
  | cons y t ih =>
      rcases List.mem_cons.mp h with h | h
      · subst h; simp only [batchMaxLen, List.map_cons, List.foldr_cons]; omega
      · have := ih h
        simp only [batchMaxLen, List.map_cons, List.foldr_cons] at this ⊢
        omega

/-- Beheading every row shrinks the batch's maximum row length by one. -/
theorem batchMaxLen_map_drop_one (xss : List (List ℤ)) :
    batchMaxLen (xss.map (List.drop 1)) = batchMaxLen xss - 1 := by
  induction xss with
  | nil => rfl
  | cons x t ih =>
      simp only [batchMaxLen, List.map_cons, List.foldr_cons, List.length_drop] at ih ⊢
      omega

/-- The maximum row length only depends on the rows' lengths. -/
theorem batchMaxLen_congr {xss yss : List (List ℤ)}
    (h : xss.map List.length = yss.map List.length) :
    batchMaxLen xss = batchMaxLen yss := by
  unfold batchMaxLen
  rw [h]

/-- Padding a batch whose rows all fit in width `W` makes every row exactly
`W` long. -/
theorem map_padTo_length (v : ℤ) (W : ℕ) (xss : List (List ℤ))
    (h : ∀ x ∈ xss, x.length ≤ W) :
    (xss.map (padTo W v)).map List.length = List.replicate xss.length W := by
  induction xss with
  | nil => rfl
  | cons x t ih =>
      have hx : (padTo W v x).length = W := by
        have := h x (List.mem_cons_self x t)
        simp only [padTo, List.length_append, List.length_replicate]
        omega
      simp only [List.map_cons, List.length_cons, List.replicate_succ, hx,
        ih (fun y hy => h y (List.mem_cons_of_mem x hy))]

/-- In both branches, the per-example attention mask is all ones over the
length of the example's `input_id`. -/
theorem encode_example_attention (M : Transformers) (s t : String) :
    (encode_example M s t).attention_mask
      = List.replicate (encode_example M s t).input_id.length 1 := by
  unfold encode_example
  split <;> rfl

/-- In the CLM branch, the per-example label has the same length as the
per-example `input_id`. -/
theorem encode_example_clm_label_length (M : Transformers) (s t : String)
    (h : M.model_name ∈ CLM_MODELS) :
    (encode_example M s t).label.length = (encode_example M s t).input_id.length := by
  unfold encode_example
  rw [if_pos h]
  simp

/-- The attention rows of a batch have the same lengths as its input rows. -/
theorem encoded_attention_lengths (M : Transformers) (corpus : Corpus) :
    ((encoded M corpus).map EncodedExample.attention_mask).map List.length
      = ((encoded M corpus).map EncodedExample.input_id).map List.length := by
  simp only [encoded, List.map_map]
  congr 1
  funext p
  simp only [Function.comp_apply]
  rw [encode_example_attention]
  simp

/-- In CLM mode, the label rows of a batch have the same lengths as its input
rows. -/
theorem encoded_clm_label_lengths (M : Transformers) (corpus : Corpus)
    (h : M.model_name ∈ CLM_MODELS) :
    ((encoded M corpus).map EncodedExample.label).map List.length
      = ((encoded M corpus).map EncodedExample.input_id).map List.length := by
  simp only [encoded, List.map_map]
  congr 1
  funext p
  simp only [Function.comp_apply]
  exact encode_example_clm_label_length M p.1 p.2 h

/-- The attention rows and the input rows of a batch pad to the same width. -/
theorem attn_batchMaxLen (M : Transformers) (corpus : Corpus) :
    batchMaxLen ((encoded M corpus).map EncodedExample.attention_mask)
      = batchMaxLen ((encoded M corpus).map EncodedExample.input_id) :=
  batchMaxLen_congr (encoded_attention_lengths M corpus)

/-- C1 (amended): within one EncodedExample, len(attention_mask) equals
len(input_id) in both modes, and len(label) equals len(input_id) in CLM mode.
(In EncDec mode the label is the framed target sequence, whose length can
differ from len(input_id); see the counterexample.) -/
theorem c1_lengths_amended (M : Transformers) (s t : String) :
    (encode_example M s t).attention_mask.length = (encode_example M s t).input_id.length ∧
    (M.model_name ∈ CLM_MODELS →
      (encode_example M s t).label.length = (encode_example M s t).input_id.length) := by
  refine ⟨?_, fun h => encode_example_clm_label_length M s t h⟩
  rw [encode_example_attention]
  simp

/-- C1 witness: on a concrete CLM example all three per-example lengths agree. -/
theorem c1_witness :
    (encode_example M_clm "ab" "abc").attention_mask.length
        = (encode_example M_clm "ab" "abc").input_id.length ∧
    (encode_example M_clm "ab" "abc").label.length
        = (encode_example M_clm "ab" "abc").input_id.length :=
  ⟨(c1_lengths_amended M_clm "ab" "abc").1,
   (c1_lengths_amended M_clm "ab" "abc").2 (by decide)⟩

/-- C1 counterexample: in EncDec mode (model `bart`), the example with source
"abc" and empty target yields input_id of length 5 but label of length 2, so
len(input_id) = len(label) fails. -/
theorem c1_counterexample :
    ¬ ((encode_example M_bart "abc" "").input_id.length
        = (encode_example M_bart "abc" "").label.length) := by decide

/-- C2: at truncation underflow the code does not produce an empty truncated
source. With source_max_length = 1 and no affixes, the CLM slice bound is
-1 and Python slicing keeps all but the last token: src_ids = [5, 6, 7]
truncates to [5, 6] (nonempty), and the built source input has 4 tokens,
exceeding source_max_length = 1; the EncDec branch behaves the same way. -/
theorem c2_underflow_code_eval :
    clm_truncated_source M_underflow [5, 6, 7] = [5, 6] ∧
    clm_truncated_source M_underflow [5, 6, 7] ≠ [] ∧
    (clm_src_input_id M_underflow [5, 6, 7]).length = 4 ∧
    M_underflow.source_max_length = 1 ∧
    encdec_truncated_source M_encdec_underflow [5, 6, 7] = [5, 6] ∧
    encdec_truncated_source M_encdec_underflow [5, 6, 7] ≠ [] := by decide

/-- C4: in CLM mode the per-example label is len(src_input_id) copies of the
ignore-sentinel -100 followed by tgt_input_id exactly, with src_input_id =
[bos] + prefix_ids + truncated_source + suffix_ids + [eos] and tgt_input_id =
truncated_target + [eos]; its prefix of length len(src_input_id) is all -100
and the rest is exactly tgt_input_id, so loss positions cover exactly the
target span. -/
theorem c4_clm_label (M : Transformers) (src tgt : String)
    (h : M.model_name ∈ CLM_MODELS) :
    (encode_example M src tgt).label
        = List.replicate (clm_src_input_id M (M.tokenizer.encode src)).length (-100)
          ++ clm_tgt_input_id M (M.tokenizer.encode tgt) ∧
    (encode_example M src tgt).label.take (clm_src_input_id M (M.tokenizer.encode src)).length
        = List.replicate (clm_src_input_id M (M.tokenizer.encode src)).length (-100) ∧
    (encode_example M src tgt).label.drop (clm_src_input_id M (M.tokenizer.encode src)).length
        = clm_tgt_input_id M (M.tokenizer.encode tgt) := by
  have hl : (encode_example M src tgt).label
      = List.replicate (clm_src_input_id M (M.tokenizer.encode src)).length (-100)
        ++ clm_tgt_input_id M (M.tokenizer.encode tgt) := by
    unfold encode_example
    rw [if_pos h]
  refine ⟨hl, ?_, ?_⟩
  · rw [hl]
    have h0 := List.take_left
      (List.replicate (clm_src_input_id M (M.tokenizer.encode src)).length (-100 : ℤ))
      (clm_tgt_input_id M (M.tokenizer.encode tgt))
    rw [List.length_replicate] at h0
    exact h0
  · rw [hl]
    have h0 := List.drop_left
      (List.replicate (clm_src_input_id M (M.tokenizer.encode src)).length (-100 : ℤ))
      (clm_tgt_input_id M (M.tokenizer.encode tgt))
    rw [List.length_replicate] at h0
    exact h0

/-- C4 witness: the CLM label shape checked on a concrete example. -/
theorem c4_witness :
    (encode_example M_clm "ab" "abc").label
        = List.replicate (clm_src_input_id M_clm (M_clm.tokenizer.encode "ab")).length (-100)
          ++ clm_tgt_input_id M_clm (M_clm.tokenizer.encode "abc") ∧
    (encode_example M_clm "ab" "abc").label.take
        (clm_src_input_id M_clm (M_clm.tokenizer.encode "ab")).length
        = List.replicate (clm_src_input_id M_clm (M_clm.tokenizer.encode "ab")).length (-100) ∧
    (encode_example M_clm "ab" "abc").label.drop
        (clm_src_input_id M_clm (M_clm.tokenizer.encode "ab")).length
        = clm_tgt_input_id M_clm (M_clm.tokenizer.encode "abc") :=
  c4_clm_label M_clm "ab" "abc" (by decide)

/-- C5: in EncDec mode, for a non-bert2bert model, the per-example label is
exactly build_inputs_with_special_tokens applied to the truncated raw target
ids (truncation bound target_max_length - num_special_tokens_to_add). -/
theorem c5_encdec_label (M : Transformers) (src tgt : String)
    (h1 : M.model_name ∉ CLM_MODELS) (_h2 : M.model_name ≠ "bert2bert") :
    (encode_example M src tgt).label
        = M.tokenizer.build_inputs_with_special_tokens
            (encdec_truncated_target M (M.tokenizer.encode tgt)) := by
  unfold encode_example
  rw [if_neg h1]

/-- C5 witness: the EncDec label equation checked on a concrete `bart`
example. -/
theorem c5_witness :
    (encode_example M_bart "abc" "a").label
        = M_bart.tokenizer.build_inputs_with_special_tokens
            (encdec_truncated_target M_bart (M_bart.tokenizer.encode "a")) :=
  c5_encdec_label M_bart "abc" "a" (by decide) (by decide)

/-- C7 (amended): when source_max_length covers the fixed overhead, i.e.
2 + len(prefix_ids) + len(suffix_ids) ≤ source_max_length, the CLM truncated
source has length at most source_max_length - 2 - len(prefix_ids) -
len(suffix_ids), and the built [bos] + prefix + source + suffix + [eos]
sequence does not exceed source_max_length. (Without that side condition the
claim fails, see the counterexample.) -/
theorem c7_truncation_amended (M : Transformers) (src_ids : List ℤ)
    (h : 2 + M.prefix_ids.length + M.suffix_ids.length ≤ M.source_max_length) :
    (clm_truncated_source M src_ids).length + 2 + M.prefix_ids.length + M.suffix_ids.length
        ≤ M.source_max_length ∧
    (clm_src_input_id M src_ids).length ≤ M.source_max_length := by
  have hlen : (clm_truncated_source M src_ids).length + 2 + M.prefix_ids.length
      + M.suffix_ids.length ≤ M.source_max_length := by
    unfold clm_truncated_source pySlice
    split
    · rename_i hk
      simp only [List.length_take]
      omega
    · rename_i hk
      exfalso
      omega
  refine ⟨hlen, ?_⟩
  unfold clm_src_input_id
  simp only [List.length_append, List.length_cons, List.length_nil]
  omega

/-- C7 witness: the spec's concrete instance — source_max_length = 10, prefix
length 2, suffix length 1 — truncates a 7-token source to exactly 5 tokens,
within the bound 10 - 2 - 2 - 1 = 5. -/
theorem c7_witness :
    2 + M_clm.prefix_ids.length + M_clm.suffix_ids.length ≤ M_clm.source_max_length ∧
    ((clm_truncated_source M_clm [11, 12, 13, 14, 15, 16, 17]).length + 2
        + M_clm.prefix_ids.length + M_clm.suffix_ids.length ≤ M_clm.source_max_length ∧
      (clm_src_input_id M_clm [11, 12, 13, 14, 15, 16, 17]).length ≤ M_clm.source_max_length) ∧
    (clm_truncated_source M_clm [11, 12, 13, 14, 15, 16, 17]).length = 5 :=
  ⟨by decide, c7_truncation_amended M_clm [11, 12, 13, 14, 15, 16, 17] (by decide), by decide⟩

/-- C7 counterexample: at underflow (source_max_length = 1, no affixes) the
truncated source [5, 6] has length 2, which is not at most
source_max_length - 2 - 0 - 0 = -1, and the built source input of length 4
does exceed source_max_length. -/
theorem c7_counterexample :
    ¬ (((clm_truncated_source M_underflow [5, 6, 7]).length : ℤ)
        ≤ (M_underflow.source_max_length : ℤ) - 2
          - M_underflow.prefix_ids.length - M_underflow.suffix_ids.length) ∧
    ¬ ((clm_src_input_id M_underflow [5, 6, 7]).length ≤ M_underflow.source_max_length) := by
  decide

/-- C9: the MODEL_CLASSES lookup performed at construction succeeds exactly
on the supported identifiers (its keys), selecting the tokenizer and model
classes listed in `transformers.py` for each of the nine, and fails (the
spec's ConfigurationError) on anything else, e.g. "xlnet". -/
theorem c9_model_lookup :
    (∀ name : String,
        (lookup_model_classes name).isSome ↔ name ∈ MODEL_CLASSES.map Prod.fst) ∧
    lookup_model_classes "t5" = some (.T5Tokenizer, .T5ForConditionalGeneration) ∧
    lookup_model_classes "bart" = some (.BartTokenizer, .BartForConditionalGeneration) ∧
    lookup_model_classes "bert2bert" = some (.BertTokenizer, .EncoderDecoderModel) ∧
    lookup_model_classes "big_bird_pegasus"
        = some (.PegasusTokenizer, .BigBirdPegasusForConditionalGeneration) ∧
    lookup_model_classes "blender_bot"
        = some (.BlenderbotTokenizer, .BlenderbotForConditionalGeneration) ∧
    lookup_model_classes "gpt2seq" = some (.GPT2Tokenizer, .GPT2LMHeadModel) ∧
    lookup_model_classes "big_bird2seq" = some (.BigBirdTokenizer, .BigBirdForCausalLM) ∧
    lookup_model_classes "bert2seq" = some (.BertTokenizer, .BertLMHeadModel) ∧
    lookup_model_classes "roberta2seq" = some (.RobertaTokenizer, .RobertaForCausalLM) ∧
    lookup_model_classes "xlnet" = none := by
  refine ⟨?_, by decide, by decide, by decide, by decide, by decide, by decide,
    by decide, by decide, by decide, by decide⟩
  intro name
  unfold lookup_model_classes
  rw [Option.isSome_map']
  rw [List.find?_isSome]
  simp [List.mem_map]

/-- C8: in every batch, row i of attention_mask is exactly len_i leading ones
(len_i = example i's unpadded input length) followed by zeros up to the batch
width; input_ids rows are the per-example ids right-padded with the
tokenizer's pad id; labels rows are the per-example labels (beheaded first in
the bert2bert case) right-padded with the ignore-sentinel -100 past the row's
unpadded length. -/
theorem c8_padding_rows (M : Transformers) (corpus : Corpus) :
    (generate_default_inputs M corpus).attention_mask
      = (encoded M corpus).map (fun e =>
          List.replicate e.input_id.length 1
            ++ List.replicate
                (batchMaxLen ((encoded M corpus).map EncodedExample.input_id)
                  - e.input_id.length) 0) ∧
    (generate_default_inputs M corpus).input_ids
      = (encoded M corpus).map (fun e =>
          e.input_id
            ++ List.replicate
                (batchMaxLen ((encoded M corpus).map EncodedExample.input_id)
                  - e.input_id.length) M.tokenizer.pad_token_id) ∧
    (generate_default_inputs M corpus).labels
      = (encoded M corpus).map (fun e =>
          (if M.model_name = "bert2bert" then e.label.drop 1 else e.label)
            ++ List.replicate
                ((if M.model_name = "bert2bert"
                    then batchMaxLen ((encoded M corpus).map EncodedExample.label) - 1
                    else batchMaxLen ((encoded M corpus).map EncodedExample.label))
                  - (if M.model_name = "bert2bert" then e.label.drop 1 else e.label).length)
                (-100)) := by
  refine ⟨?_, ?_, ?_⟩
  · show pad_sequence ((encoded M corpus).map EncodedExample.attention_mask) 0 = _
    rw [pad_sequence, attn_batchMaxLen]
    simp only [encoded, List.map_map]
    congr 1
    funext p
    simp only [Function.comp_apply]
    rw [encode_example_attention]
    simp [padTo]
  · show pad_sequence ((encoded M corpus).map EncodedExample.input_id)
        M.tokenizer.pad_token_id = _
    rw [pad_sequence, List.map_map]
    congr 1
  · show (if M.model_name = "bert2bert"
        then (pad_sequence ((encoded M corpus).map EncodedExample.label) (-100)).map
              (List.drop 1)
        else pad_sequence ((encoded M corpus).map EncodedExample.label) (-100)) = _
    by_cases hb : M.model_name = "bert2bert"
    · rw [if_pos hb]
      simp only [hb, if_pos]
      rw [pad_sequence, List.map_map, List.map_map]
      congr 1
      funext e
      simp only [Function.comp_apply]
      rw [padTo_drop_one]
      simp [padTo]
    · rw [if_neg hb]
      simp only [if_neg hb]
      rw [pad_sequence, List.map_map]
      congr 1

/-- C3 (amended): all three output tensors have leading dimension equal to the
number of examples; input_ids and attention_mask rows all have the batch's
maximum input length; labels rows all have the batch's maximum label length
(one less in the bert2bert configuration, whose first label column is
dropped), and in CLM mode that label width coincides with the input width.
(In EncDec mode the label width can differ from the input width, see the
counterexample.) -/
theorem c3_batch_shapes_amended (M : Transformers) (corpus : Corpus) :
    (generate_default_inputs M corpus).input_ids.length
        = (corpus.source_text.zip corpus.target_text).length ∧
    (generate_default_inputs M corpus).attention_mask.length
        = (corpus.source_text.zip corpus.target_text).length ∧
    (generate_default_inputs M corpus).labels.length
        = (corpus.source_text.zip corpus.target_text).length ∧
    (generate_default_inputs M corpus).input_ids.map List.length
        = List.replicate (corpus.source_text.zip corpus.target_text).length
            (batchMaxLen ((encoded M corpus).map EncodedExample.input_id)) ∧
    (generate_default_inputs M corpus).attention_mask.map List.length
        = List.replicate (corpus.source_text.zip corpus.target_text).length
            (batchMaxLen ((encoded M corpus).map EncodedExample.input_id)) ∧
    (generate_default_inputs M corpus).labels.map List.length
        = List.replicate (corpus.source_text.zip corpus.target_text).length
            (if M.model_name = "bert2bert"
              then batchMaxLen ((encoded M corpus).map EncodedExample.label) - 1
              else batchMaxLen ((encoded M corpus).map EncodedExample.label)) ∧
    (M.model_name ∈ CLM_MODELS →
      batchMaxLen ((encoded M corpus).map EncodedExample.label)
        = batchMaxLen ((encoded M corpus).map EncodedExample.input_id)) := by
  have hzip : (encoded M corpus).length = (corpus.source_text.zip corpus.target_text).length := by
    simp [encoded]
  refine ⟨?_, ?_, ?_, ?_, ?_, ?_, ?_⟩
  · show (pad_sequence ((encoded M corpus).map EncodedExample.input_id)
        M.tokenizer.pad_token_id).length = _
    simp [pad_sequence, hzip]
  · show (pad_sequence ((encoded M corpus).map EncodedExample.attention_mask) 0).length = _
    simp [pad_sequence, hzip]
  · show (if M.model_name = "bert2bert"
        then (pad_sequence ((encoded M corpus).map EncodedExample.label) (-100)).map
              (List.drop 1)
        else pad_sequence ((encoded M corpus).map EncodedExample.label) (-100)).length = _
    by_cases hb : M.model_name = "bert2bert" <;>
      simp [hb, pad_sequence, hzip]
  · show (pad_sequence ((encoded M corpus).map EncodedExample.input_id)
        M.tokenizer.pad_token_id).map List.length = _
    rw [pad_sequence, map_padTo_length _ _ _ (fun x hx => length_le_batchMaxLen hx)]
    rw [List.length_map, hzip]
  · show (pad_sequence ((encoded M corpus).map EncodedExample.attention_mask) 0).map
        List.length = _
    rw [pad_sequence, attn_batchMaxLen]
    rw [map_padTo_length _ _ _ ?hb]
    · rw [List.length_map, hzip]
    case hb =>
      intro x hx
      have := length_le_batchMaxLen hx
      rw [attn_batchMaxLen] at this
      exact this
  · show ((if M.model_name = "bert2bert"
        then (pad_sequence ((encoded M corpus).map EncodedExample.label) (-100)).map
              (List.drop 1)
        else pad_sequence ((encoded M corpus).map EncodedExample.label) (-100))).map
          List.length = _
    by_cases hb : M.model_name = "bert2bert"
    · rw [if_pos hb]
      simp only [hb, if_pos]
      have hcomp : ((pad_sequence ((encoded M corpus).map EncodedExample.label) (-100)).map
            (List.drop 1)).map List.length
          = ((pad_sequence ((encoded M corpus).map EncodedExample.label) (-100)).map
              List.length).map (fun k => k - 1) := by
        simp [List.map_map, Function.comp]
      rw [hcomp, pad_sequence, map_padTo_length _ _ _ (fun x hx => length_le_batchMaxLen hx)]
      rw [List.map_replicate, List.length_map, hzip]
    · rw [if_neg hb]
      simp only [if_neg hb]
      rw [pad_sequence, map_padTo_length _ _ _ (fun x hx => length_le_batchMaxLen hx)]
      rw [List.length_map, hzip]
  · intro h
    exact batchMaxLen_congr (encoded_clm_label_lengths M corpus h)

/-- C3 witness: on a concrete CLM batch, the leading dimension is the example
count and the label width equals the input width. -/
theorem c3_witness :
    (generate_default_inputs M_clm C_clm).input_ids.length
        = (C_clm.source_text.zip C_clm.target_text).length ∧
    batchMaxLen ((encoded M_clm C_clm).map EncodedExample.label)
        = batchMaxLen ((encoded M_clm C_clm).map EncodedExample.input_id) :=
  ⟨(c3_batch_shapes_amended M_clm C_clm).1,
   (c3_batch_shapes_amended M_clm C_clm).2.2.2.2.2.2 (by decide)⟩

/-- C3 counterexample: in EncDec mode (model `bart`) with the one-example
batch (source "abc", empty target), the labels row has length 2 while the
input_ids row has length 5, so the tensors do not share a second dimension. -/
theorem c3_counterexample :
    ¬ (((generate_default_inputs M_bart ⟨["abc"], [""]⟩).labels.getD 0 []).length
        = ((generate_default_inputs M_bart ⟨["abc"], [""]⟩).input_ids.getD 0 []).length) := by
  decide

/-- C6: in the bert2bert configuration, the labels handed to the model are,
for each example in the batch, the EncDec label
build_inputs_with_special_tokens(truncated_target) with its first element
(the leading decoder-start token) removed, right-padded with -100 to the
common width. -/
theorem c6_bert2bert_labels (M : Transformers) (corpus : Corpus)
    (hb : M.model_name = "bert2bert") :
    (generate_default_inputs M corpus).labels
      = (corpus.source_text.zip corpus.target_text).map (fun p =>
          padTo (batchMaxLen ((encoded M corpus).map EncodedExample.label) - 1) (-100)
            ((M.tokenizer.build_inputs_with_special_tokens
                (encdec_truncated_target M (M.tokenizer.encode p.2))).drop 1)) := by
  have hnotclm : ¬ M.model_name ∈ CLM_MODELS := by rw [hb]; decide
  show (if M.model_name = "bert2bert"
      then (pad_sequence ((encoded M corpus).map EncodedExample.label) (-100)).map
            (List.drop 1)
      else pad_sequence ((encoded M corpus).map EncodedExample.label) (-100)) = _
  rw [if_pos hb]
  rw [pad_sequence, List.map_map]
  simp only [encoded, List.map_map]
  congr 1
  funext p
  simp only [Function.comp_apply]
  rw [padTo_drop_one]
  congr 2
  unfold encode_example
  rw [if_neg hnotclm]

/-- C6 witness: the bert2bert label equation checked on a concrete batch. -/
theorem c6_witness :
    (generate_default_inputs M_b2b C_b2b).labels
      = (C_b2b.source_text.zip C_b2b.target_text).map (fun p =>
          padTo (batchMaxLen ((encoded M_b2b C_b2b).map EncodedExample.label) - 1) (-100)
            ((M_b2b.tokenizer.build_inputs_with_special_tokens
                (encdec_truncated_target M_b2b (M_b2b.tokenizer.encode p.2))).drop 1)) :=
  c6_bert2bert_labels M_b2b C_b2b rfl

/-- C10: in the bert2bert configuration, dropping column 0 of the padded
labels is the same as first beheading each per-example label and then
right-padding with the ignore-sentinel; and (labels being nonempty, as every
build_inputs_with_special_tokens output of this configuration is) the element
each row loses under the batch-level slice is that row's own real leading
label token, never a padding sentinel. -/
theorem c10_shift_pad_equiv (M : Transformers) (corpus : Corpus)
    (hb : M.model_name = "bert2bert")
    (h : ∀ e ∈ encoded M corpus, e.label ≠ []) :
    (generate_default_inputs M corpus).labels
        = pad_sequence ((encoded M corpus).map (fun e => e.label.drop 1)) (-100) ∧
    ∀ e ∈ encoded M corpus,
      (padTo (batchMaxLen ((encoded M corpus).map EncodedExample.label)) (-100)
          e.label).head?
        = e.label.head? := by
  constructor
  · show (if M.model_name = "bert2bert"
        then (pad_sequence ((encoded M corpus).map EncodedExample.label) (-100)).map
              (List.drop 1)
        else pad_sequence ((encoded M corpus).map EncodedExample.label) (-100)) = _
    rw [if_pos hb]
    have hmm : (encoded M corpus).map (fun e => e.label.drop 1)
        = ((encoded M corpus).map EncodedExample.label).map (List.drop 1) := by
      simp [List.map_map]
    rw [hmm]
    rw [pad_sequence, pad_sequence, batchMaxLen_map_drop_one]
    simp only [List.map_map]
    congr 1
    funext e
    simp only [Function.comp_apply]
    rw [padTo_drop_one]
  · intro e he
    have hne := h e he
    cases hl : e.label with
    | nil => exact absurd hl hne
    | cons a t => simp [padTo, hl]

/-- C10 witness: the slice/pad commutation checked on a concrete bert2bert
batch. -/
theorem c10_witness :
    (generate_default_inputs M_b2b C_b2b).labels
        = pad_sequence ((encoded M_b2b C_b2b).map (fun e => e.label.drop 1)) (-100) :=
  (c10_shift_pad_equiv M_b2b C_b2b rfl (by decide)).1

end TextBox
